import Mathlib

/-!
Verification of the voidbot-backend server (`src/server.js`).

The server keeps two in-memory maps, `deviceCodes` and `sessions`, and a
handful of Express route handlers that broker OAuth tokens with the Discord
API.  We embed the state and the handlers shallowly:

* JS strings are modelled as `List Char` (`JStr`), so that `startsWith` and
  `slice` become `List.isPrefixOf` and `List.drop`/`List.take`, and JS
  truthiness of a string (`if (!s)`) becomes emptiness.
* The two JS `Map`s are association lists with JS `Map.get` / `Map.set`
  semantics (`mget` / `mset`): `set` replaces the value in place when the key
  is present and appends otherwise.
* Every route handler is a pure function from the request data and the server
  state to a response together with the new state.  Calls to the upstream
  Discord API (`fetch`) are modelled by oracle parameters giving the upstream
  response for each forwarded bearer token, and `JSON.parse` of a user body by
  a `parseUser` oracle; `Date.now()` is an explicit `now : Nat` (milliseconds)
  and the random generators (`genDeviceCode`, `genSessionToken`) receive their
  random choices as parameters.
-/

set_option autoImplicit false

namespace Voidbot

/-- JS strings, modelled as their character sequences. -/
abbrev JStr := List Char

/-- The string literal `"Bearer "` that authorization headers are matched
against (its length is 7, the amount `slice(7)` removes). -/
def bearerMarker : JStr := "Bearer ".toList

/-- JS `a || b` on strings: `b` when `a` is falsy (empty), else `a`. -/
def jsOr (a b : JStr) : JStr := if a = [] then b else a

/-- A value stored in the `deviceCodes` map:
`{ userId, discord_access_token, exp, used }`. -/
structure DeviceRow where
  userId : JStr
  discord_access_token : JStr
  exp : Nat
  used : Bool
deriving Repr, DecidableEq

/-- A value stored in the `sessions` map:
`{ userId, discord_access_token, exp, device_name }`. -/
structure SessionRow where
  userId : JStr
  discord_access_token : JStr
  exp : Nat
  device_name : JStr
deriving Repr, DecidableEq

/-- An upstream (Discord) HTTP response as the handlers observe it:
the `ok` flag, the status code, and the body text. -/
structure HttpResp where
  ok : Bool
  status : Nat
  text : JStr
deriving Repr, DecidableEq

/-- The fields of a parsed Discord user object that the server reads. -/
structure DiscordUser where
  id : JStr
  username : JStr
  global_name : JStr
  avatar : JStr
  email : JStr
deriving Repr, DecidableEq

/-- The parsed token-exchange payload fields the server reads. -/
structure TokenData where
  access_token : JStr
  scope : JStr
  token_type : JStr
deriving Repr, DecidableEq

/-- JS `Map.get`: the value stored at `k`, if any. -/
def mget {α : Type} : List (JStr × α) → JStr → Option α
  | [], _ => none
  | (k', v) :: t, k => if k' = k then some v else mget t k

/-- JS `Map.set`: replace the entry in place when the key is present,
append otherwise. -/
def mset {α : Type} : List (JStr × α) → JStr → α → List (JStr × α)
  | [], k, v => [(k, v)]
  | (k', v') :: t, k, v =>
      if k' = k then (k, v) :: t else (k', v') :: mset t k v

/-- The whole mutable server state: the `deviceCodes` and `sessions` maps. -/
structure ServerState where
  deviceCodes : List (JStr × DeviceRow)
  sessions : List (JStr × SessionRow)
deriving Repr, DecidableEq

/-- The HTTP responses the modelled handlers can produce.  `errR` is
`res.status(s).json({ error })`, `errDetails` attaches a `details` field,
`errBody` attaches a `body` field, and the `ok*` constructors are the
success payloads of the respective endpoints. -/
inductive Resp where
  | errR (status : Nat) (error : String)
  | errDetails (status : Nat) (error : String) (details : JStr)
  | errBody (status : Nat) (error : String) (body : JStr)
  | okStart (device_code : JStr) (expires_at : Nat)
  | okClaim (session_token : JStr) (user : DiscordUser) (expires_at : Nat)
  | okText (text : JStr)
  | okAuth (user : DiscordUser) (scope : JStr) (token_type : JStr)
      (access_token : JStr)
deriving Repr, DecidableEq

/-- The 31-character device-code alphabet
`"ABCDEFGHJKMNPQRSTUVWXYZ23456789"`. -/
def alphabet : JStr := "ABCDEFGHJKMNPQRSTUVWXYZ23456789".toList

theorem alphabet_length : alphabet.length = 31 := rfl

/-- One random draw `alphabet[Math.floor(Math.random() * alphabet.length)]`:
the index is uniform in `[0, 31)`, modelled as `Fin 31`. -/
def alphaChar (i : Fin 31) : Char :=
  alphabet.get (Fin.cast alphabet_length.symm i)

/-- `genDeviceCode`: build `raw` from the random draws and join
`raw.slice(0,4)`, `raw.slice(4,8)`, `raw.slice(8)` with dashes.  The default
call `genDeviceCode(12)` corresponds to `picks.length = 12`. -/
def genDeviceCode (picks : List (Fin 31)) : JStr :=
  let raw := picks.map alphaChar
  raw.take 4 ++ '-' :: ((raw.drop 4).take 4 ++ '-' :: raw.drop 8)

/-- `resolveDiscordTokenFromAuthHeader`: strip `"Bearer "`, return `null`
for an empty token, map a live session token to its stored Discord token,
and otherwise pass the raw token through. -/
def resolveDiscordTokenFromAuthHeader (sessions : List (JStr × SessionRow))
    (now : Nat) (authorization : Option JStr) : Option JStr :=
  let a := authorization.getD []
  let tok := if bearerMarker.isPrefixOf a then a.drop 7 else []
  if tok = [] then none
  else
    match mget sessions tok with
    | some sess =>
        if sess.exp > now then some sess.discord_access_token else some tok
    | none => some tok

/-- `POST /api/auth/discord`.  `exchange` is the upstream response of the
token-exchange call, `parseToken` the JSON parse of its body on the success
path, `fetchUser` the upstream `users/@me` call keyed by bearer token and
`parseUser` the JSON parse of a user body. -/
def authDiscord (exchange : HttpResp) (parseToken : JStr → TokenData)
    (fetchUser : JStr → HttpResp) (parseUser : JStr → DiscordUser)
    (code : Option JStr) (st : ServerState) : Resp × ServerState :=
  if (code.getD []) = [] then (Resp.errR 400 "missing_code", st)
  else
    let tokenData := parseToken exchange.text
    if !exchange.ok then
      (Resp.errDetails 400 "token_exchange_failed" exchange.text, st)
    else
      let userResp := fetchUser tokenData.access_token
      let user := parseUser userResp.text
      if user.id = [] then
        (Resp.errDetails 400 "user_fetch_failed" userResp.text, st)
      else
        (Resp.okAuth user tokenData.scope tokenData.token_type
          tokenData.access_token, st)

/-- `POST /api/device/start`: validate the bearer token upstream, then store
a fresh device code with a 10-minute expiry and `used: false`.  `newCode` is
the value `genDeviceCode(12)` returned. -/
def deviceStart (fetchMe : JStr → HttpResp) (parseUser : JStr → DiscordUser)
    (newCode : JStr) (now : Nat) (authHeader : Option JStr)
    (st : ServerState) : Resp × ServerState :=
  let auth := authHeader.getD []
  let discordToken := if bearerMarker.isPrefixOf auth then auth.drop 7 else []
  if discordToken = [] then (Resp.errR 401 "missing_bearer_token", st)
  else
    let meR := fetchMe discordToken
    if !meR.ok then
      (Resp.errDetails 401 "discord_unauthorized" meR.text, st)
    else
      let me := parseUser meR.text
      let exp := now + 10 * 60 * 1000
      (Resp.okStart newCode exp,
        { st with deviceCodes :=
            (mset st.deviceCodes newCode ⟨me.id, discordToken, exp, false⟩) })

/-- `POST /api/device/claim`: validate the code, look the user up upstream,
then mark the code used and store a fresh 30-day session.  `newToken` is the
value `genSessionToken()` returned. -/
def deviceClaim (fetchMe : JStr → HttpResp) (parseUser : JStr → DiscordUser)
    (newToken : JStr) (now : Nat)
    (device_code device_name : Option JStr) (st : ServerState) :
    Resp × ServerState :=
  let dc := device_code.getD []
  if dc = [] then (Resp.errR 400 "missing_code", st)
  else
    match mget st.deviceCodes dc with
    | none => (Resp.errR 400 "invalid_code", st)
    | some row =>
      if row.used then (Resp.errR 400 "already_used", st)
      else if row.exp < now then (Resp.errR 400 "expired", st)
      else
        let meR := fetchMe row.discord_access_token
        if !meR.ok then
          (Resp.errDetails 401 "discord_unauthorized" meR.text, st)
        else
          let me := parseUser meR.text
          let exp := now + 30 * 24 * 60 * 60 * 1000
          (Resp.okClaim newToken me exp,
            { deviceCodes :=
                (mset st.deviceCodes dc { row with used := true }),
              sessions :=
                (mset st.sessions newToken
                  ⟨row.userId, row.discord_access_token, exp,
                    jsOr (device_name.getD []) "Windows".toList⟩) })

/-- `GET /api/me`: resolve the bearer token, forward it upstream, relay the
body or the upstream error. -/
def apiMe (fetchMe : JStr → HttpResp) (now : Nat) (auth : Option JStr)
    (st : ServerState) : Resp × ServerState :=
  match resolveDiscordTokenFromAuthHeader st.sessions now auth with
  | none => (Resp.errR 401 "missing_token", st)
  | some tok =>
    let r := fetchMe tok
    if !r.ok then (Resp.errBody r.status "discord_error" r.text, st)
    else (Resp.okText r.text, st)

/-- `GET /api/discord/guilds`: like `/api/me` but against
`users/@me/guilds`. -/
def apiGuilds (fetchGuilds : JStr → HttpResp) (now : Nat) (auth : Option JStr)
    (st : ServerState) : Resp × ServerState :=
  match resolveDiscordTokenFromAuthHeader st.sessions now auth with
  | none => (Resp.errR 401 "missing_bearer_token", st)
  | some tok =>
    let r := fetchGuilds tok
    if !r.ok then (Resp.errBody r.status "discord_error" r.text, st)
    else (Resp.okText r.text, st)

/-- The hourly `setInterval` sweep: delete sessions with `exp <= now` and
device codes with `exp <= now || used`. -/
def cleanup (now : Nat) (st : ServerState) : ServerState :=
  { sessions := st.sessions.filter (fun p => !decide (p.2.exp ≤ now)),
    deviceCodes :=
      st.deviceCodes.filter
        (fun p => !decide (p.2.exp ≤ now ∨ p.2.used = true)) }

/-! ### Helper lemmas about the map and string operations -/

theorem mget_mset_self {α : Type} (m : List (JStr × α)) (k : JStr) (v : α) :
    mget (mset m k v) k = some v := by
  induction m with
  | nil => simp [mget, mset]
  | cons p t ih =>
    obtain ⟨k', v'⟩ := p
    by_cases h : k' = k <;> simp [mget, mset, h, ih]

theorem mget_mset_ne {α : Type} (m : List (JStr × α)) (k k' : JStr) (v : α)
    (h : k' ≠ k) : mget (mset m k v) k' = mget m k' := by
  induction m with
  | nil => simp [mget, mset, Ne.symm h]
  | cons p t ih =>
    obtain ⟨k₀, v₀⟩ := p
    by_cases h₀ : k₀ = k
    · subst h₀
      simp [mget, mset, Ne.symm h]
    · simp only [mset, if_neg h₀]
      by_cases h₁ : k₀ = k' <;> simp [mget, h₁, ih]

theorem isPrefixOf_append_self (p t : List Char) :
    p.isPrefixOf (p ++ t) = true := by
  induction p with
  | nil => cases t <;> rfl
  | cons a p ih => simp [List.isPrefixOf, ih]

theorem bearerMarker_drop_append (t : JStr) :
    (bearerMarker ++ t).drop 7 = t := rfl

theorem bearerMarker_append_ne_nil (t : JStr) : bearerMarker ++ t ≠ [] := by
  simp [bearerMarker]

theorem alphaChar_mem (i : Fin 31) : alphaChar i ∈ alphabet :=
  List.get_mem alphabet _ _

/-! ### The claims -/

/-- C1: a `POST /api/device/claim` with an unknown `device_code` answers
400 `invalid_code`; with a code whose entry is already used it answers
400 `already_used`; with an unused entry whose expiry lies in the past it
answers 400 `expired`; and in each case the whole server state (both maps)
is returned unchanged, so no session is created. -/
theorem claim_rejects_bad_codes
    (fetchMe : JStr → HttpResp) (parseUser : JStr → DiscordUser)
    (newToken : JStr) (now : Nat) (dc : JStr) (dn : Option JStr)
    (st : ServerState) (hdc : dc ≠ []) :
    (mget st.deviceCodes dc = none →
      deviceClaim fetchMe parseUser newToken now (some dc) dn st =
        (Resp.errR 400 "invalid_code", st)) ∧
    (∀ row : DeviceRow, mget st.deviceCodes dc = some row →
      row.used = true →
      deviceClaim fetchMe parseUser newToken now (some dc) dn st =
        (Resp.errR 400 "already_used", st)) ∧
    (∀ row : DeviceRow, mget st.deviceCodes dc = some row →
      row.used = false → row.exp < now →
      deviceClaim fetchMe parseUser newToken now (some dc) dn st =
        (Resp.errR 400 "expired", st)) := by
  refine ⟨?_, ?_, ?_⟩
  · intro h
    simp [deviceClaim, hdc, h]
  · intro row h hused
    simp [deviceClaim, hdc, h, hused]
  · intro row h hused hexp
    simp [deviceClaim, hdc, h, hused, hexp]

theorem claim_rejects_bad_codes_witness :
    deviceClaim (fun _ => ⟨true, 200, []⟩) (fun _ => ⟨[], [], [], [], []⟩)
        [] 0 (some ['A']) none ⟨[], []⟩ =
      (Resp.errR 400 "invalid_code", ⟨[], []⟩) :=
  (claim_rejects_bad_codes (fun _ => ⟨true, 200, []⟩)
    (fun _ => ⟨[], [], [], [], []⟩) [] 0 ['A'] none ⟨[], []⟩
    (by decide)).1 (by decide)

/-- C2: for a header `Bearer <t>` with a non-empty token `t`,
`resolveDiscordTokenFromAuthHeader` returns the stored Discord access token
when `t` is a live session (its key is in the map and its expiry is strictly
in the future) and `t` itself otherwise; for a header that is missing or does
not start with `"Bearer "` it returns `null`, upon which `/api/me` answers
401 `missing_token` and `/api/discord/guilds` answers 401
`missing_bearer_token`. -/
theorem resolveToken_spec
    (st : ServerState) (now : Nat) (t : JStr)
    (f g : JStr → HttpResp) (ht : t ≠ []) :
    (resolveDiscordTokenFromAuthHeader st.sessions now
        (some (bearerMarker ++ t)) =
      match mget st.sessions t with
      | some s =>
          if s.exp > now then some s.discord_access_token else some t
      | none => some t) ∧
    (∀ a : Option JStr, bearerMarker.isPrefixOf (a.getD []) = false →
      resolveDiscordTokenFromAuthHeader st.sessions now a = none ∧
      apiMe f now a st = (Resp.errR 401 "missing_token", st) ∧
      apiGuilds g now a st = (Resp.errR 401 "missing_bearer_token", st)) := by
  constructor
  · simp only [resolveDiscordTokenFromAuthHeader, Option.getD_some,
      isPrefixOf_append_self, if_true, bearerMarker_drop_append, if_neg ht]
  · intro a ha
    have hres : resolveDiscordTokenFromAuthHeader st.sessions now a = none := by
      simp [resolveDiscordTokenFromAuthHeader, ha]
    exact ⟨hres, by simp [apiMe, hres], by simp [apiGuilds, hres]⟩

theorem resolveToken_spec_witness :
    resolveDiscordTokenFromAuthHeader
        (ServerState.mk [] [(['t'], ⟨['u'], ['d'], 10, ['w']⟩)]).sessions 5
        (some (bearerMarker ++ ['t'])) =
      match mget [(['t'], (⟨['u'], ['d'], 10, ['w']⟩ : SessionRow))] ['t'] with
      | some s => if s.exp > 5 then some s.discord_access_token else some ['t']
      | none => some ['t'] :=
  (resolveToken_spec ⟨[], [(['t'], ⟨['u'], ['d'], 10, ['w']⟩)]⟩ 5 ['t']
    (fun _ => ⟨true, 200, []⟩) (fun _ => ⟨true, 200, []⟩) (by decide)).1

/-- C3: device codes are single-use.  After a successful
`POST /api/device/claim` the stored entry for the code has `used = true`,
and every subsequent claim of the same code (with any clock, body and
upstream behaviour) answers 400 `already_used` and returns the state
unchanged, so no second session is created. -/
theorem deviceCode_single_use
    (fetchMe : JStr → HttpResp) (parseUser : JStr → DiscordUser)
    (newToken : JStr) (now : Nat) (dc : JStr) (dn : Option JStr)
    (st : ServerState) (row : DeviceRow)
    (hdc : dc ≠ [])
    (hrow : mget st.deviceCodes dc = some row)
    (hused : row.used = false)
    (hexp : ¬ row.exp < now)
    (hok : (fetchMe row.discord_access_token).ok = true) :
    ∃ st' : ServerState,
      deviceClaim fetchMe parseUser newToken now (some dc) dn st =
        (Resp.okClaim newToken
          (parseUser (fetchMe row.discord_access_token).text)
          (now + 30 * 24 * 60 * 60 * 1000), st') ∧
      mget st'.deviceCodes dc = some { row with used := true } ∧
      (∀ (f₂ : JStr → HttpResp) (p₂ : JStr → DiscordUser) (tk₂ : JStr)
          (now₂ : Nat) (dn₂ : Option JStr),
        deviceClaim f₂ p₂ tk₂ now₂ (some dc) dn₂ st' =
          (Resp.errR 400 "already_used", st')) := by
  refine ⟨⟨mset st.deviceCodes dc { row with used := true },
      mset st.sessions newToken
        ⟨row.userId, row.discord_access_token, now + 30 * 24 * 60 * 60 * 1000,
          jsOr (dn.getD []) "Windows".toList⟩⟩, ?_, ?_, ?_⟩
  · simp [deviceClaim, hdc, hrow, hused, hexp, hok]
  · simpa using mget_mset_self st.deviceCodes dc { row with used := true }
  · intro f₂ p₂ tk₂ now₂ dn₂
    have h' : mget (mset st.deviceCodes dc { row with used := true }) dc =
        some { row with used := true } := mget_mset_self _ _ _
    simp [deviceClaim, hdc, h']

theorem deviceCode_single_use_witness :
    ∃ st' : ServerState,
      deviceClaim (fun _ => ⟨true, 200, ['j']⟩) (fun _ => ⟨['u'], [], [], [], []⟩)
          ['s'] 100 (some ['A']) none
          ⟨[(['A'], ⟨['u'], ['d'], 200, false⟩)], []⟩ =
        (Resp.okClaim ['s'] ⟨['u'], [], [], [], []⟩
          (100 + 30 * 24 * 60 * 60 * 1000), st') ∧
      mget st'.deviceCodes ['A'] =
        some { (⟨['u'], ['d'], 200, false⟩ : DeviceRow) with used := true } ∧
      (∀ (f₂ : JStr → HttpResp) (p₂ : JStr → DiscordUser) (tk₂ : JStr)
          (now₂ : Nat) (dn₂ : Option JStr),
        deviceClaim f₂ p₂ tk₂ now₂ (some ['A']) dn₂ st' =
          (Resp.errR 400 "already_used", st')) :=
  deviceCode_single_use (fun _ => ⟨true, 200, ['j']⟩)
    (fun _ => ⟨['u'], [], [], [], []⟩) ['s'] 100 ['A'] none
    ⟨[(['A'], ⟨['u'], ['d'], 200, false⟩)], []⟩ ⟨['u'], ['d'], 200, false⟩
    (by decide) (by decide) (by decide) (by decide) (by decide)

/-- C4: `GET /api/me` and `GET /api/discord/guilds` never modify the server
state — in particular a resolved session entry is neither marked used nor
has its expiry changed — so the same live session token keeps resolving to
the same stored Discord access token after any such request. -/
theorem session_requests_frame
    (f g : JStr → HttpResp) (now now₂ : Nat) (a : Option JStr)
    (st : ServerState) (t : JStr) (s : SessionRow)
    (hs : mget st.sessions t = some s) (hexp : s.exp > now₂)
    (ht : t ≠ []) :
    (apiMe f now a st).2 = st ∧ (apiGuilds g now a st).2 = st ∧
    resolveDiscordTokenFromAuthHeader (apiMe f now a st).2.sessions now₂
        (some (bearerMarker ++ t)) = some s.discord_access_token := by
  have hme : (apiMe f now a st).2 = st := by
    unfold apiMe
    cases resolveDiscordTokenFromAuthHeader st.sessions now a with
    | none => rfl
    | some tok => by_cases h : (f tok).ok <;> simp [h]
  have hg : (apiGuilds g now a st).2 = st := by
    unfold apiGuilds
    cases resolveDiscordTokenFromAuthHeader st.sessions now a with
    | none => rfl
    | some tok => by_cases h : (g tok).ok <;> simp [h]
  refine ⟨hme, hg, ?_⟩
  rw [hme]
  simp only [resolveDiscordTokenFromAuthHeader, Option.getD_some,
    isPrefixOf_append_self, if_true, bearerMarker_drop_append,
    if_neg ht, hs, if_pos hexp]

theorem session_requests_frame_witness :
    (apiMe (fun _ => ⟨true, 200, []⟩) 0 none
        ⟨[], [(['t'], ⟨['u'], ['d'], 10, ['w']⟩)]⟩).2 =
      ⟨[], [(['t'], ⟨['u'], ['d'], 10, ['w']⟩)]⟩ ∧
    (apiGuilds (fun _ => ⟨true, 200, []⟩) 0 none
        ⟨[], [(['t'], ⟨['u'], ['d'], 10, ['w']⟩)]⟩).2 =
      ⟨[], [(['t'], ⟨['u'], ['d'], 10, ['w']⟩)]⟩ ∧
    resolveDiscordTokenFromAuthHeader
        (apiMe (fun _ => ⟨true, 200, []⟩) 0 none
          ⟨[], [(['t'], ⟨['u'], ['d'], 10, ['w']⟩)]⟩).2.sessions 5
        (some (bearerMarker ++ ['t'])) = some ['d'] :=
  session_requests_frame (fun _ => ⟨true, 200, []⟩) (fun _ => ⟨true, 200, []⟩)
    0 5 none ⟨[], [(['t'], ⟨['u'], ['d'], 10, ['w']⟩)]⟩ ['t']
    ⟨['u'], ['d'], 10, ['w']⟩ (by decide) (by decide) (by decide)

/-- C5: one run of the periodic sweep keeps a session entry exactly when its
expiry is not yet reached (`¬ exp ≤ now`) and keeps a device-code entry
exactly when it is neither expired nor used; the surviving entries are the
very entries of the input maps, unchanged. -/
theorem cleanup_spec (now : Nat) (st : ServerState) (k : JStr)
    (v : SessionRow) (w : DeviceRow) :
    ((k, v) ∈ (cleanup now st).sessions ↔
      (k, v) ∈ st.sessions ∧ ¬ v.exp ≤ now) ∧
    ((k, w) ∈ (cleanup now st).deviceCodes ↔
      (k, w) ∈ st.deviceCodes ∧ ¬ (w.exp ≤ now ∨ w.used = true)) := by
  constructor <;> simp [cleanup, List.mem_filter]

/-- C6: a failed upstream call is reflected back with the provider body
attached.  A non-ok token exchange makes `POST /api/auth/discord` answer 400
`token_exchange_failed` with the provider body as `details`; a non-ok
provider call makes `GET /api/me` and `GET /api/discord/guilds` answer with
the provider's own status, error `discord_error`, and the provider body; in
every case the state is unchanged and the single provider response fully
determines the answer (no retry). -/
theorem upstream_errors_reflected
    (exchange : HttpResp) (parseToken : JStr → TokenData)
    (fetchUser fetchMe fetchGuilds : JStr → HttpResp)
    (parseUser : JStr → DiscordUser) (code : JStr) (now : Nat)
    (a : Option JStr) (t : JStr) (st : ServerState)
    (hcode : code ≠ []) (hex : exchange.ok = false)
    (hres : resolveDiscordTokenFromAuthHeader st.sessions now a = some t)
    (hme : (fetchMe t).ok = false) (hg : (fetchGuilds t).ok = false) :
    authDiscord exchange parseToken fetchUser parseUser (some code) st =
      (Resp.errDetails 400 "token_exchange_failed" exchange.text, st) ∧
    apiMe fetchMe now a st =
      (Resp.errBody (fetchMe t).status "discord_error" (fetchMe t).text,
        st) ∧
    apiGuilds fetchGuilds now a st =
      (Resp.errBody (fetchGuilds t).status "discord_error"
        (fetchGuilds t).text, st) := by
  refine ⟨?_, ?_, ?_⟩
  · simp [authDiscord, hcode, hex]
  · simp [apiMe, hres, hme]
  · simp [apiGuilds, hres, hg]

theorem upstream_errors_reflected_witness :
    authDiscord ⟨false, 400, ['e']⟩ (fun _ => ⟨[], [], []⟩)
        (fun _ => ⟨true, 200, []⟩) (fun _ => ⟨[], [], [], [], []⟩)
        (some ['c']) ⟨[], []⟩ =
      (Resp.errDetails 400 "token_exchange_failed" ['e'], ⟨[], []⟩) ∧
    apiMe (fun _ => ⟨false, 403, ['x']⟩) 0 (some (bearerMarker ++ ['t']))
        ⟨[], []⟩ =
      (Resp.errBody 403 "discord_error" ['x'], ⟨[], []⟩) ∧
    apiGuilds (fun _ => ⟨false, 403, ['x']⟩) 0 (some (bearerMarker ++ ['t']))
        ⟨[], []⟩ =
      (Resp.errBody 403 "discord_error" ['x'], ⟨[], []⟩) :=
  upstream_errors_reflected ⟨false, 400, ['e']⟩ (fun _ => ⟨[], [], []⟩)
    (fun _ => ⟨true, 200, []⟩) (fun _ => ⟨false, 403, ['x']⟩)
    (fun _ => ⟨false, 403, ['x']⟩) (fun _ => ⟨[], [], [], [], []⟩)
    ['c'] 0 (some (bearerMarker ++ ['t'])) ['t'] ⟨[], []⟩
    (by decide) (by decide) (by decide) (by decide) (by decide)

/-- C7: the entries the two device-pairing endpoints store have exactly the
documented shape.  `POST /api/device/start` stores, under the fresh code,
the provider user id, the caller's access token, an expiry of `now` plus 10
minutes, and `used = false`.  A successful `POST /api/device/claim` stores,
under the fresh session token, the user id and access token copied unchanged
from the claimed device-code entry, an expiry of `now` plus 30 days, and as
device label the request's non-empty `device_name`, or `"Windows"` when none
was supplied. -/
theorem stored_entries_shape
    (fetchMe : JStr → HttpResp) (parseUser : JStr → DiscordUser)
    (newCode newToken : JStr) (now : Nat) (authTok dc : JStr)
    (dn : Option JStr) (st : ServerState) (row : DeviceRow)
    (ha : authTok ≠ []) (hok : (fetchMe authTok).ok = true)
    (hdc : dc ≠ []) (hrow : mget st.deviceCodes dc = some row)
    (hused : row.used = false) (hexp : ¬ row.exp < now)
    (hok₂ : (fetchMe row.discord_access_token).ok = true) :
    mget (deviceStart fetchMe parseUser newCode now
        (some (bearerMarker ++ authTok)) st).2.deviceCodes newCode =
      some ⟨(parseUser (fetchMe authTok).text).id, authTok,
        now + 10 * 60 * 1000, false⟩ ∧
    (∀ d : JStr, dn = some d → d ≠ [] →
      mget (deviceClaim fetchMe parseUser newToken now (some dc) dn
          st).2.sessions newToken =
        some ⟨row.userId, row.discord_access_token,
          now + 30 * 24 * 60 * 60 * 1000, d⟩) ∧
    (dn = none →
      mget (deviceClaim fetchMe parseUser newToken now (some dc) dn
          st).2.sessions newToken =
        some ⟨row.userId, row.discord_access_token,
          now + 30 * 24 * 60 * 60 * 1000, "Windows".toList⟩) := by
  refine ⟨?_, ?_, ?_⟩
  · have hpre : bearerMarker.isPrefixOf (bearerMarker ++ authTok) = true :=
      isPrefixOf_append_self _ _
    simp only [deviceStart, Option.getD_some, hpre, if_true,
      bearerMarker_drop_append, if_neg ha, hok, Bool.not_true,
      Bool.false_eq_true, if_false]
    exact mget_mset_self _ _ _
  · intro d hd hdne
    subst hd
    simp only [deviceClaim, Option.getD_some, if_neg hdc, hrow, hused,
      Bool.false_eq_true, if_false, if_neg hexp, hok₂, Bool.not_true]
    simpa [jsOr, hdne] using
      mget_mset_self st.sessions newToken
        ⟨row.userId, row.discord_access_token,
          now + 30 * 24 * 60 * 60 * 1000, d⟩
  · intro hd
    subst hd
    simp only [deviceClaim, Option.getD_some, if_neg hdc, hrow, hused,
      Bool.false_eq_true, if_false, if_neg hexp, hok₂, Bool.not_true]
    simpa [jsOr] using
      mget_mset_self st.sessions newToken
        ⟨row.userId, row.discord_access_token,
          now + 30 * 24 * 60 * 60 * 1000, "Windows".toList⟩

theorem stored_entries_shape_witness :
    mget (deviceStart (fun _ => ⟨true, 200, ['j']⟩)
        (fun _ => ⟨['u'], [], [], [], []⟩) ['C'] 0
        (some (bearerMarker ++ ['a'])) ⟨[(['A'], ⟨['u'], ['d'], 9, false⟩)],
          []⟩).2.deviceCodes ['C'] =
      some ⟨['u'], ['a'], 0 + 10 * 60 * 1000, false⟩ ∧
    (∀ d : JStr, (none : Option JStr) = some d → d ≠ [] →
      mget (deviceClaim (fun _ => ⟨true, 200, ['j']⟩)
          (fun _ => ⟨['u'], [], [], [], []⟩) ['s'] 0 (some ['A']) none
          ⟨[(['A'], ⟨['u'], ['d'], 9, false⟩)], []⟩).2.sessions ['s'] =
        some ⟨['u'], ['d'], 0 + 30 * 24 * 60 * 60 * 1000, d⟩) ∧
    ((none : Option JStr) = none →
      mget (deviceClaim (fun _ => ⟨true, 200, ['j']⟩)
          (fun _ => ⟨['u'], [], [], [], []⟩) ['s'] 0 (some ['A']) none
          ⟨[(['A'], ⟨['u'], ['d'], 9, false⟩)], []⟩).2.sessions ['s'] =
        some ⟨['u'], ['d'], 0 + 30 * 24 * 60 * 60 * 1000,
          "Windows".toList⟩) :=
  stored_entries_shape (fun _ => ⟨true, 200, ['j']⟩)
    (fun _ => ⟨['u'], [], [], [], []⟩) ['C'] ['s'] 0 ['a'] ['A'] none
    ⟨[(['A'], ⟨['u'], ['d'], 9, false⟩)], []⟩ ⟨['u'], ['d'], 9, false⟩
    (by decide) (by decide) (by decide) (by decide) (by decide)
    (by decide) (by decide)

/-- C8: claiming is atomic on upstream failure.  If the provider user lookup
inside `POST /api/device/claim` for a known, unused, unexpired code fails,
the endpoint answers 401 `discord_unauthorized` with the provider body and
returns the state unchanged — the code's `used` flag stays `false` and no
session appears — so a later claim of the same code (against a healthy
provider, before expiry) still succeeds. -/
theorem claim_atomic_on_upstream_failure
    (fetchMe f₂ : JStr → HttpResp) (parseUser p₂ : JStr → DiscordUser)
    (newToken tk₂ : JStr) (now now₂ : Nat) (dc : JStr)
    (dn dn₂ : Option JStr) (st : ServerState) (row : DeviceRow)
    (hdc : dc ≠ []) (hrow : mget st.deviceCodes dc = some row)
    (hused : row.used = false) (hexp : ¬ row.exp < now)
    (hfail : (fetchMe row.discord_access_token).ok = false)
    (hexp₂ : ¬ row.exp < now₂)
    (hok₂ : (f₂ row.discord_access_token).ok = true) :
    deviceClaim fetchMe parseUser newToken now (some dc) dn st =
      (Resp.errDetails 401 "discord_unauthorized"
        (fetchMe row.discord_access_token).text, st) ∧
    (deviceClaim f₂ p₂ tk₂ now₂ (some dc) dn₂ st).1 =
      Resp.okClaim tk₂ (p₂ (f₂ row.discord_access_token).text)
        (now₂ + 30 * 24 * 60 * 60 * 1000) := by
  constructor
  · simp [deviceClaim, hdc, hrow, hused, hexp, hfail]
  · simp [deviceClaim, hdc, hrow, hused, hexp₂, hok₂]

theorem claim_atomic_on_upstream_failure_witness :
    deviceClaim (fun _ => ⟨false, 401, ['x']⟩)
        (fun _ => ⟨['u'], [], [], [], []⟩) ['s'] 0 (some ['A']) none
        ⟨[(['A'], ⟨['u'], ['d'], 9, false⟩)], []⟩ =
      (Resp.errDetails 401 "discord_unauthorized" ['x'],
        ⟨[(['A'], ⟨['u'], ['d'], 9, false⟩)], []⟩) ∧
    (deviceClaim (fun _ => ⟨true, 200, ['j']⟩)
        (fun _ => ⟨['u'], [], [], [], []⟩) ['s'] 1 (some ['A']) none
        ⟨[(['A'], ⟨['u'], ['d'], 9, false⟩)], []⟩).1 =
      Resp.okClaim ['s'] ⟨['u'], [], [], [], []⟩
        (1 + 30 * 24 * 60 * 60 * 1000) :=
  claim_atomic_on_upstream_failure (fun _ => ⟨false, 401, ['x']⟩)
    (fun _ => ⟨true, 200, ['j']⟩) (fun _ => ⟨['u'], [], [], [], []⟩)
    (fun _ => ⟨['u'], [], [], [], []⟩) ['s'] ['s'] 0 1 ['A'] none none
    ⟨[(['A'], ⟨['u'], ['d'], 9, false⟩)], []⟩ ⟨['u'], ['d'], 9, false⟩
    (by decide) (by decide) (by decide) (by decide) (by decide)
    (by decide) (by decide)

/-- C9: an expired session token is not rejected.  For a Bearer token that is
a key of the sessions map whose expiry is `≤ now`,
`resolveDiscordTokenFromAuthHeader` returns the token itself, so `/api/me`
and `/api/discord/guilds` do not answer 401 but forward the session token —
not the stored Discord access token — upstream, relaying whatever the
provider answers for it. -/
theorem expired_session_passthrough
    (fetchMe fetchGuilds : JStr → HttpResp) (now : Nat) (t : JStr)
    (st : ServerState) (s : SessionRow) (ht : t ≠ [])
    (hs : mget st.sessions t = some s) (hexp : s.exp ≤ now) :
    resolveDiscordTokenFromAuthHeader st.sessions now
        (some (bearerMarker ++ t)) = some t ∧
    apiMe fetchMe now (some (bearerMarker ++ t)) st =
      ((if (fetchMe t).ok then Resp.okText (fetchMe t).text
        else Resp.errBody (fetchMe t).status "discord_error"
          (fetchMe t).text), st) ∧
    apiGuilds fetchGuilds now (some (bearerMarker ++ t)) st =
      ((if (fetchGuilds t).ok then Resp.okText (fetchGuilds t).text
        else Resp.errBody (fetchGuilds t).status "discord_error"
          (fetchGuilds t).text), st) := by
  have hres : resolveDiscordTokenFromAuthHeader st.sessions now
      (some (bearerMarker ++ t)) = some t := by
    simp only [resolveDiscordTokenFromAuthHeader, Option.getD_some,
      isPrefixOf_append_self, if_true, bearerMarker_drop_append,
      if_neg ht, hs]
    simp [Nat.not_lt.mpr hexp]
  refine ⟨hres, ?_, ?_⟩
  · by_cases h : (fetchMe t).ok <;> simp [apiMe, hres, h]
  · by_cases h : (fetchGuilds t).ok <;> simp [apiGuilds, hres, h]

theorem expired_session_passthrough_witness :
    resolveDiscordTokenFromAuthHeader
        [(['t'], (⟨['u'], ['d'], 3, ['w']⟩ : SessionRow))] 5
        (some (bearerMarker ++ ['t'])) = some ['t'] ∧
    apiMe (fun _ => ⟨true, 200, ['b']⟩) 5 (some (bearerMarker ++ ['t']))
        ⟨[], [(['t'], ⟨['u'], ['d'], 3, ['w']⟩)]⟩ =
      ((if (true : Bool) then Resp.okText ['b']
        else Resp.errBody 200 "discord_error" ['b']),
        ⟨[], [(['t'], ⟨['u'], ['d'], 3, ['w']⟩)]⟩) ∧
    apiGuilds (fun _ => ⟨true, 200, ['b']⟩) 5 (some (bearerMarker ++ ['t']))
        ⟨[], [(['t'], ⟨['u'], ['d'], 3, ['w']⟩)]⟩ =
      ((if (true : Bool) then Resp.okText ['b']
        else Resp.errBody 200 "discord_error" ['b']),
        ⟨[], [(['t'], ⟨['u'], ['d'], 3, ['w']⟩)]⟩) :=
  expired_session_passthrough (fun _ => ⟨true, 200, ['b']⟩)
    (fun _ => ⟨true, 200, ['b']⟩) 5 ['t']
    ⟨[], [(['t'], ⟨['u'], ['d'], 3, ['w']⟩)]⟩ ⟨['u'], ['d'], 3, ['w']⟩
    (by decide) (by decide) (by decide)

/-- C10: with the default length 12, `genDeviceCode` yields a 14-character
string of the form `XXXX-XXXX-XXXX`: the characters at positions 4 and 9 are
dashes and every other position holds a character of the 31-character
alphabet `"ABCDEFGHJKMNPQRSTUVWXYZ23456789"`. -/
theorem genDeviceCode_format (picks : List (Fin 31))
    (hlen : picks.length = 12) :
    (genDeviceCode picks).length = 14 ∧
    (genDeviceCode picks)[4]? = some '-' ∧
    (genDeviceCode picks)[9]? = some '-' ∧
    (∀ i : Nat, i < 14 → i ≠ 4 → i ≠ 9 →
      ∃ c ∈ alphabet, (genDeviceCode picks)[i]? = some c) := by
  rcases picks with _ | ⟨a₀, picks⟩; · simp at hlen
  rcases picks with _ | ⟨a₁, picks⟩; · simp at hlen
  rcases picks with _ | ⟨a₂, picks⟩; · simp at hlen
  rcases picks with _ | ⟨a₃, picks⟩; · simp at hlen
  rcases picks with _ | ⟨a₄, picks⟩; · simp at hlen
  rcases picks with _ | ⟨a₅, picks⟩; · simp at hlen
  rcases picks with _ | ⟨a₆, picks⟩; · simp at hlen
  rcases picks with _ | ⟨a₇, picks⟩; · simp at hlen
  rcases picks with _ | ⟨a₈, picks⟩; · simp at hlen
  rcases picks with _ | ⟨a₉, picks⟩; · simp at hlen
  rcases picks with _ | ⟨a₁₀, picks⟩; · simp at hlen
  rcases picks with _ | ⟨a₁₁, picks⟩; · simp at hlen
  rcases picks with _ | ⟨a₁₂, picks⟩
  · refine ⟨rfl, rfl, rfl, ?_⟩
    intro i hi h4 h9
    interval_cases i <;>
      first
        | exact absurd rfl h4
        | exact absurd rfl h9
        | exact ⟨_, alphaChar_mem _, rfl⟩
  · simp at hlen

theorem genDeviceCode_format_witness :
    (genDeviceCode (List.replicate 12 (0 : Fin 31))).length = 14 ∧
    (genDeviceCode (List.replicate 12 (0 : Fin 31)))[4]? = some '-' ∧
    (genDeviceCode (List.replicate 12 (0 : Fin 31)))[9]? = some '-' ∧
    (∀ i : Nat, i < 14 → i ≠ 4 → i ≠ 9 →
      ∃ c ∈ alphabet,
        (genDeviceCode (List.replicate 12 (0 : Fin 31)))[i]? = some c) :=
  genDeviceCode_format (List.replicate 12 (0 : Fin 31)) (by decide)

end Voidbot
